import Mathlib

/-
Shallow embedding of the jarvis tool functions (app/jarvis/tools).

The repository's tool functions are thin wrappers around the Gmail and
GitHub REST APIs.  External effects are modelled by explicit environments:
a Gmail service object becomes a `GmailEnv` (or `none` when
`get_gmail_service()` fails), the GitHub side becomes a `GithubEnv` whose
`headers` field is the result of `get_github_headers()` and whose `http`
field answers HTTP requests.  A Python expression that may raise is
modelled by `PyResult`; base64url decoding and MIME construction (calls
into the Python standard library) are supplied by the environment.
Every tool function returns its Python result dictionary together with
the list of HTTP/API requests it issued, in order.
-/

namespace Jarvis

/-- JSON-shaped Python values flowing through the tools. -/
inductive JSON where
  | null : JSON
  | bool : Bool → JSON
  | num : Int → JSON
  | str : String → JSON
  | arr : List JSON → JSON
  | obj : List (String × JSON) → JSON

/-- Result of a Python expression that may raise: a value, or an
exception carrying the text of `str(e)`. -/
inductive PyResult (α : Type) where
  | ok : α → PyResult α
  | exn : String → PyResult α

/-- First-match lookup in an association list (Python dicts cannot hold
duplicate keys, so dict literals are looked up this way). -/
def lookupPairs : List (String × JSON) → String → Option JSON
  | [], _ => none
  | (k', v) :: rest, k => if k' = k then some v else lookupPairs rest k

/-- Python `d[k]` / `k in d` on a dictionary; `none` when the value is not
a dictionary or the key is absent. -/
def JSON.lookup : JSON → String → Option JSON
  | .obj kvs, k => lookupPairs kvs k
  | _, _ => none

/-- Python `d.get(k, default)` on a dictionary value. -/
def JSON.lookupD (j : JSON) (k : String) (d : JSON) : JSON :=
  match j.lookup k with
  | some v => v
  | none => d

/-- Python truthiness (`if not x:`) for the JSON values that occur here. -/
def JSON.isFalsy : JSON → Bool
  | .null => true
  | .bool b => !b
  | .num n => n == 0
  | .str s => s == ""
  | .arr xs => xs.isEmpty
  | .obj kvs => kvs.isEmpty

/-- The uniform result-dictionary shape of the tools: a `status` field, a
`message` field, then any extra fields, in the order the source writes
the dict literal. -/
def statusObj (st msg : String) (rest : List (String × JSON)) : JSON :=
  JSON.obj (("status", JSON.str st) :: ("message", JSON.str msg) :: rest)

/-- UTF-8 encoding of one character (Python `str.encode()`), as byte
values. -/
def utf8Bytes (c : Char) : List Nat :=
  let n := c.toNat
  if n < 128 then [n]
  else if n < 2048 then [192 + n / 64, 128 + n % 64]
  else if n < 65536 then [224 + n / 4096, 128 + n / 64 % 64, 128 + n % 64]
  else [240 + n / 262144, 128 + n / 4096 % 64, 128 + n / 64 % 64, 128 + n % 64]

/-- The standard base64 alphabet (RFC 4648), as used by Python
`base64.b64encode`. -/
def b64Alphabet : List Char :=
  "ABCDEFGHIJKLMNOPQRSTUVWXYZabcdefghijklmnopqrstuvwxyz0123456789+/".toList

def b64Char (n : Nat) : Char := b64Alphabet.getD n '='

def b64EncodeNats : List Nat → List Char
  | [] => []
  | [a] => [b64Char (a / 4), b64Char (a % 4 * 16), '=', '=']
  | [a, b] => [b64Char (a / 4), b64Char (a % 4 * 16 + b / 16), b64Char (b % 16 * 4), '=']
  | a :: b :: c :: rest =>
    b64Char (a / 4) :: b64Char (a % 4 * 16 + b / 16) ::
      b64Char (b % 16 * 4 + c / 64) :: b64Char (c % 64) :: b64EncodeNats rest

/-- Python `base64.b64encode(content.encode()).decode()`: standard base64
of the UTF-8 bytes of a string. -/
def b64encode (s : String) : String :=
  String.mk (b64EncodeNats ((s.toList.map utf8Bytes).flatten))

/-! Gmail side (`email_utils.py` and the four email tools). -/

/-- One Gmail API request, as issued through the service object. -/
inductive GmailReq where
  | list : String → Int → GmailReq
  | get : JSON → GmailReq
  | trash : String → GmailReq
  | delete : String → GmailReq
  | getProfile : GmailReq
  | send : JSON → GmailReq

/-- A Gmail service object, as produced by `get_gmail_service()`:
each `execute()`d API call is a function of its arguments, and the
standard-library helpers (base64url decoding used by `format_message`,
MIME construction used by `create_message`) are supplied here as well.
`decode` returns `none` when `base64.urlsafe_b64decode(...).decode()`
would raise. -/
structure GmailEnv where
  listMessages : String → Int → PyResult JSON
  getMessage : JSON → PyResult JSON
  trashMessage : String → PyResult JSON
  deleteMessage : String → PyResult JSON
  getProfile : PyResult JSON
  sendMessage : JSON → PyResult JSON
  createRaw : JSON → String → String → String → Bool → String
  decode : String → Option String

/-- Python `str.lower()` as applied to header names (header names are
ASCII, so per-character lowering is exact there). -/
def pyLower (s : String) : String := String.mk (s.toList.map Char.toLower)

def placeholderBody : String := "[Could not decode message body]"

/-- Body text of one message part: `base64.urlsafe_b64decode(part['body']['data']).decode()`,
where any raised exception is caught by `format_message`'s inner
`try`/`except` and yields the placeholder. -/
def partBodyText (decode : String → Option String) (p : JSON) : String :=
  match p.lookup "body" with
  | some pb =>
    match pb.lookup "data" with
    | some (JSON.str d) =>
      match decode d with
      | some s => s
      | none => placeholderBody
    | some _ => placeholderBody
    | none => placeholderBody
  | none => placeholderBody

/-- The `for part in message['payload']['parts']` loop of `format_message`:
the first part whose `mimeType` equals `text/plain` is decoded and the
loop breaks; a part without a `mimeType` key raises `KeyError`, which the
inner `except` turns into the placeholder; if no part matches, `body`
keeps its initial value `""`. -/
def scanParts (decode : String → Option String) : List JSON → String
  | [] => ""
  | p :: ps =>
    match p.lookup "mimeType" with
    | some (JSON.str mt) =>
      if mt = "text/plain" then partBodyText decode p else scanParts decode ps
    | some _ => scanParts decode ps
    | none => placeholderBody

/-- Python substring containment, for the `'data' in payload['body']`
membership test when the body value is a string. -/
def listHasInfix (pat : List Char) : List Char → Bool
  | [] => pat.isEmpty
  | c :: rest => if pat.isPrefixOf (c :: rest) then true else listHasInfix pat rest

/-- The `elif 'body' in payload and 'data' in payload['body']` branch of
`format_message`.  The `in` test follows Python semantics per type of
`payload['body']`: a key test on a dictionary (then a missing `data`
leaves `body` at `""`, non-string data or a failing decode yields the
placeholder); a `TypeError` on `None`, numbers and booleans, caught by
the inner `except` into the placeholder; a substring test on a string
and an element test on a list, where a positive test makes the
subsequent string-keyed subscript raise `TypeError`, again caught into
the placeholder, and a negative test leaves `body` at `""`. -/
def topLevelBodyText (decode : String → Option String) (payload : JSON) : String :=
  match payload.lookup "body" with
  | some (JSON.obj bkvs) =>
    match lookupPairs bkvs "data" with
    | some (JSON.str d) =>
      match decode d with
      | some s => s
      | none => placeholderBody
    | some _ => placeholderBody
    | none => ""
  | some (JSON.str s) =>
    if listHasInfix "data".toList s.toList then placeholderBody else ""
  | some (JSON.arr l) =>
    if l.any (fun e => match e with | JSON.str t => t == "data" | _ => false) then
      placeholderBody
    else ""
  | some JSON.null => placeholderBody
  | some (JSON.bool _) => placeholderBody
  | some (JSON.num _) => placeholderBody
  | none => ""

/-- Body extraction of `format_message` (the whole inner `try`/`except`):
if the payload has a `parts` key, only the parts are scanned (a
non-iterable `parts` value raises and yields the placeholder); otherwise
the top-level payload body data is used. -/
def extractBody (decode : String → Option String) (payload : JSON) : String :=
  match payload.lookup "parts" with
  | some (JSON.arr ps) => scanParts decode ps
  | some _ => placeholderBody
  | none => topLevelBodyText decode payload

/-- The header-dictionary construction of `format_message`:
`headers[header['name'].lower()] = header['value']` over the payload's
header list.  A header entry without `name`/`value`, or with a
non-string `name`, raises, and that exception is not caught inside
`format_message`. -/
def buildHeaders : List JSON → PyResult (List (String × JSON))
  | [] => .ok []
  | h :: hs =>
    match h.lookup "name", h.lookup "value" with
    | some (JSON.str n), some v =>
      match buildHeaders hs with
      | .ok rest => .ok ((pyLower n, v) :: rest)
      | .exn e => .exn e
    | some _, some _ => .exn "AttributeError: lower"
    | _, _ => .exn "KeyError: name or value"

/-- Python dict lookup with default on the header dictionary: repeated
assignments overwrite, so the last entry for a key wins. -/
def dictGetLast : List (String × JSON) → String → JSON → JSON
  | [], _, d => d
  | (k', v) :: rest, k, d =>
    if k' = k then dictGetLast rest k v else dictGetLast rest k d

/-- `format_message` from `email_utils.py`: reshape a Gmail API message
object into the fixed eight-key dictionary.  Exceptions raised outside
the inner body `try` (malformed header entries, a non-dictionary
payload) propagate to the calling tool, hence the `PyResult`. -/
def format_message (decode : String → Option String) (message : JSON) : PyResult JSON :=
  match message with
  | JSON.obj _ =>
    let payload := message.lookupD "payload" (JSON.obj [])
    match payload with
    | JSON.obj _ =>
      let hdrs : PyResult (List (String × JSON)) :=
        match payload.lookup "headers" with
        | some (JSON.arr hs) => buildHeaders hs
        | some _ => .exn "TypeError: headers not iterable"
        | none => .ok []
      match hdrs with
      | .exn e => .exn e
      | .ok headers =>
        let body := extractBody decode payload
        .ok (JSON.obj
          [("id", message.lookupD "id" (JSON.str "")),
           ("thread_id", message.lookupD "threadId" (JSON.str "")),
           ("from", dictGetLast headers "from" (JSON.str "Unknown")),
           ("to", dictGetLast headers "to" (JSON.str "Unknown")),
           ("subject", dictGetLast headers "subject" (JSON.str "(No Subject)")),
           ("date", dictGetLast headers "date" (JSON.str "Unknown")),
           ("snippet", message.lookupD "snippet" (JSON.str "")),
           ("body", JSON.str body)])
    | _ => .exn "AttributeError: payload has no attribute get"
  | _ => .exn "AttributeError: message has no attribute get"

/-- The Gmail search query built by `list_emails`:
`f"label:{label}"`, extended with a space and the user query when the
user query is non-empty. -/
def searchQuery (label query : String) : String :=
  "label:" ++ label ++ (if query = "" then "" else " " ++ query)

/-- The per-message loop of `list_emails`: fetch each listed message with
`format="full"` and format it; the first exception (missing `id` key,
API error, `format_message` raising) aborts the loop and propagates. -/
def fetchEmails (g : GmailEnv) : List JSON → PyResult (List JSON) × List GmailReq
  | [] => (.ok [], [])
  | m :: ms =>
    match m.lookup "id" with
    | none => (.exn "KeyError: id", [])
    | some mid =>
      match g.getMessage mid with
      | .exn e => (.exn e, [GmailReq.get mid])
      | .ok msgJson =>
        match format_message g.decode msgJson with
        | .exn e => (.exn e, [GmailReq.get mid])
        | .ok fm =>
          let (res, reqs) := fetchEmails g ms
          match res with
          | .exn e => (.exn e, GmailReq.get mid :: reqs)
          | .ok rest => (.ok (fm :: rest), GmailReq.get mid :: reqs)

/-- `list_emails` from `list_emails.py`.  The `service` argument is the
result of `get_gmail_service()` (`none` when authentication failed). -/
def list_emails (service : Option GmailEnv) (max_results : Int := 10)
    (query : String := "") (label : String := "INBOX") : JSON × List GmailReq :=
  match service with
  | none =>
    (statusObj "error" "Failed to authenticate with Gmail. Please check credentials."
      [("emails", JSON.arr [])], [])
  | some g =>
    let sq := searchQuery label query
    let req := GmailReq.list sq max_results
    match g.listMessages sq max_results with
    | .exn e =>
      (statusObj "error" ("Error listing emails: " ++ e) [("emails", JSON.arr [])], [req])
    | .ok results =>
      match results with
      | JSON.obj _ =>
        let messages := results.lookupD "messages" (JSON.arr [])
        if messages.isFalsy then
          (statusObj "success" "No emails found." [("emails", JSON.arr [])], [req])
        else
          match messages with
          | JSON.arr ms =>
            let (res, reqs) := fetchEmails g ms
            match res with
            | .exn e =>
              (statusObj "error" ("Error listing emails: " ++ e) [("emails", JSON.arr [])],
               req :: reqs)
            | .ok emails =>
              (statusObj "success" ("Found " ++ toString emails.length ++ " emails.")
                [("emails", JSON.arr emails)], req :: reqs)
          | _ =>
            (statusObj "error" "Error listing emails: TypeError: messages not iterable"
              [("emails", JSON.arr [])], [req])
      | _ =>
        (statusObj "error" "Error listing emails: AttributeError: get"
          [("emails", JSON.arr [])], [req])

/-- `read_email` from `read_email.py`. -/
def read_email (service : Option GmailEnv) (email_id : String) : JSON × List GmailReq :=
  match service with
  | none =>
    (statusObj "error" "Failed to authenticate with Gmail. Please check credentials." [], [])
  | some g =>
    let req := GmailReq.get (JSON.str email_id)
    match g.getMessage (JSON.str email_id) with
    | .exn e => (statusObj "error" ("Error reading email: " ++ e) [], [req])
    | .ok message =>
      match format_message g.decode message with
      | .exn e => (statusObj "error" ("Error reading email: " ++ e) [], [req])
      | .ok fm =>
        (statusObj "success" "Email retrieved successfully" [("email", fm)], [req])

/-- `send_email` from `send_email.py`: fetch the sender address from the
profile, build the MIME message via `create_message`, and send it. -/
def send_email (service : Option GmailEnv) (toAddr subject body : String)
    (is_html : Bool := false) : JSON × List GmailReq :=
  match service with
  | none =>
    (statusObj "error" "Failed to authenticate with Gmail. Please check credentials." [], [])
  | some g =>
    match g.getProfile with
    | .exn e => (statusObj "error" ("Error sending email: " ++ e) [], [GmailReq.getProfile])
    | .ok profile =>
      match profile with
      | JSON.obj _ =>
        let sender := profile.lookupD "emailAddress" JSON.null
        let message := JSON.obj [("raw", JSON.str (g.createRaw sender toAddr subject body is_html))]
        match g.sendMessage message with
        | .exn e =>
          (statusObj "error" ("Error sending email: " ++ e) [],
           [GmailReq.getProfile, GmailReq.send message])
        | .ok sent =>
          match sent.lookup "id" with
          | some mid =>
            (statusObj "success" "Email sent successfully" [("message_id", mid)],
             [GmailReq.getProfile, GmailReq.send message])
          | none =>
            (statusObj "error" "Error sending email: KeyError: id" [],
             [GmailReq.getProfile, GmailReq.send message])
      | _ =>
        (statusObj "error" "Error sending email: AttributeError: get" [],
         [GmailReq.getProfile])

/-- `delete_email` from `delete_email.py`: move to trash when `trash` is
true (the default), permanently delete otherwise. -/
def delete_email (service : Option GmailEnv) (email_id : String)
    (trash : Bool := true) : JSON × List GmailReq :=
  match service with
  | none =>
    (statusObj "error" "Failed to authenticate with Gmail. Please check credentials." [], [])
  | some g =>
    if trash then
      match g.trashMessage email_id with
      | .exn e => (statusObj "error" ("Error deleting email: " ++ e) [], [GmailReq.trash email_id])
      | .ok _ =>
        (statusObj "success" "Email moved to trash successfully" [], [GmailReq.trash email_id])
    else
      match g.deleteMessage email_id with
      | .exn e => (statusObj "error" ("Error deleting email: " ++ e) [], [GmailReq.delete email_id])
      | .ok _ =>
        (statusObj "success" "Email permanently deleted successfully" [],
         [GmailReq.delete email_id])

/-! GitHub side (`github_utils.py` and `github_tools.py`). -/

/-- One HTTP request issued through `requests`: method, URL, and the
`json=` payload when there is one. -/
structure GithubReq where
  method : String
  url : String
  body : Option JSON

/-- One `requests` response: status code, text, and the result of
`response.json()` (which may raise on a non-JSON body). -/
structure HttpResponse where
  status_code : Int
  text : String
  json : PyResult JSON

/-- The GitHub execution environment: `headers` is the result of
`get_github_headers()` (`none` when credential loading failed) and
`http` answers the HTTP requests. -/
structure GithubEnv where
  headers : Option JSON
  http : GithubReq → PyResult HttpResponse

/-- The `if not headers:` authentication check at the top of every GitHub
tool function. -/
def githubAuthFailed (env : GithubEnv) : Bool :=
  match env.headers with
  | none => true
  | some h => h.isFalsy

/-- The per-repository reshaping of `list_repositories`. -/
def formatRepo (r : JSON) : JSON :=
  JSON.obj
    [("id", r.lookupD "id" JSON.null),
     ("name", r.lookupD "name" JSON.null),
     ("full_name", r.lookupD "full_name" JSON.null),
     ("description", r.lookupD "description" JSON.null),
     ("url", r.lookupD "html_url" JSON.null),
     ("private", r.lookupD "private" JSON.null),
     ("created_at", r.lookupD "created_at" JSON.null),
     ("updated_at", r.lookupD "updated_at" JSON.null),
     ("language", r.lookupD "language" JSON.null)]

/-- The `for repo in repos` loop of `list_repositories`; a non-dictionary
element raises (`.get` on it fails) and propagates to the catch-all. -/
def formatRepos : List JSON → PyResult (List JSON)
  | [] => .ok []
  | r :: rs =>
    match r with
    | JSON.obj _ =>
      match formatRepos rs with
      | .ok rest => .ok (formatRepo r :: rest)
      | .exn e => .exn e
    | _ => .exn "AttributeError: get"

def listReposReq : GithubReq := ⟨"GET", "https://api.github.com/user/repos", none⟩

/-- `list_repositories` from `github_tools.py`. -/
def list_repositories (env : GithubEnv) : JSON × List GithubReq :=
  if githubAuthFailed env then
    (statusObj "error" "Failed to authenticate with GitHub. Please check credentials."
      [("repositories", JSON.arr [])], [])
  else
    match env.http listReposReq with
    | .exn e =>
      (statusObj "error" ("Error listing repositories: " ++ e)
        [("repositories", JSON.arr [])], [listReposReq])
    | .ok resp =>
      if resp.status_code ≠ 200 then
        (statusObj "error"
          ("GitHub API error: " ++ toString resp.status_code ++ " - " ++ resp.text)
          [("repositories", JSON.arr [])], [listReposReq])
      else
        match resp.json with
        | .exn e =>
          (statusObj "error" ("Error listing repositories: " ++ e)
            [("repositories", JSON.arr [])], [listReposReq])
        | .ok repos =>
          if repos.isFalsy then
            (statusObj "success" "No repositories found."
              [("repositories", JSON.arr [])], [listReposReq])
          else
            match repos with
            | JSON.arr rs =>
              match formatRepos rs with
              | .ok fr =>
                (statusObj "success"
                  ("Found " ++ toString fr.length ++ " repositories.")
                  [("repositories", JSON.arr fr)], [listReposReq])
              | .exn e =>
                (statusObj "error" ("Error listing repositories: " ++ e)
                  [("repositories", JSON.arr [])], [listReposReq])
            | _ =>
              (statusObj "error" "Error listing repositories: TypeError: not iterable"
                [("repositories", JSON.arr [])], [listReposReq])

def createRepoUrl : String := "https://api.github.com/user/repos"

/-- `create_repository` from `github_tools.py`. -/
def create_repository (env : GithubEnv) (name : String) (description : String := "")
    (isPrivate : Bool := false) : JSON × List GithubReq :=
  if githubAuthFailed env then
    (statusObj "error" "Failed to authenticate with GitHub. Please check credentials." [], [])
  else
    let data := JSON.obj
      [("name", JSON.str name), ("description", JSON.str description),
       ("private", JSON.bool isPrivate), ("auto_init", JSON.bool true)]
    let req : GithubReq := ⟨"POST", createRepoUrl, some data⟩
    match env.http req with
    | .exn e => (statusObj "error" ("Error creating repository: " ++ e) [], [req])
    | .ok resp =>
      if resp.status_code ≠ 200 ∧ resp.status_code ≠ 201 then
        (statusObj "error"
          ("GitHub API error: " ++ toString resp.status_code ++ " - " ++ resp.text) [], [req])
      else
        match resp.json with
        | .exn e => (statusObj "error" ("Error creating repository: " ++ e) [], [req])
        | .ok repo =>
          match repo with
          | JSON.obj _ =>
            (statusObj "success" ("Repository '" ++ name ++ "' created successfully.")
              [("repository", JSON.obj
                [("id", repo.lookupD "id" JSON.null),
                 ("name", repo.lookupD "name" JSON.null),
                 ("full_name", repo.lookupD "full_name" JSON.null),
                 ("description", repo.lookupD "description" JSON.null),
                 ("url", repo.lookupD "html_url" JSON.null),
                 ("clone_url", repo.lookupD "clone_url" JSON.null),
                 ("private", repo.lookupD "private" JSON.null)])], [req])
          | _ =>
            (statusObj "error" "Error creating repository: AttributeError: get" [], [req])

/-- The contents URL built by `scan_repository`. -/
def scanUrl (repo_name path : String) : String :=
  "https://api.github.com/repos/" ++ repo_name ++ "/contents" ++
    (if path = "" then "" else "/" ++ path)

/-- The per-item reshaping of `scan_repository`. -/
def formatContentItem (item : JSON) : JSON :=
  JSON.obj
    [("name", item.lookupD "name" JSON.null),
     ("path", item.lookupD "path" JSON.null),
     ("type", item.lookupD "type" JSON.null),
     ("size", item.lookupD "size" JSON.null),
     ("url", item.lookupD "html_url" JSON.null)]

/-- The `for item in contents` loop of `scan_repository`. -/
def formatContentsList : List JSON → PyResult (List JSON)
  | [] => .ok []
  | it :: its =>
    match it with
    | JSON.obj _ =>
      match formatContentsList its with
      | .ok rest => .ok (formatContentItem it :: rest)
      | .exn e => .exn e
    | _ => .exn "AttributeError: get"

/-- `scan_repository` from `github_tools.py`. -/
def scan_repository (env : GithubEnv) (repo_name : String) (path : String := "") :
    JSON × List GithubReq :=
  if githubAuthFailed env then
    (statusObj "error" "Failed to authenticate with GitHub. Please check credentials."
      [("contents", JSON.arr [])], [])
  else
    let req : GithubReq := ⟨"GET", scanUrl repo_name path, none⟩
    match env.http req with
    | .exn e =>
      (statusObj "error" ("Error scanning repository: " ++ e)
        [("contents", JSON.arr [])], [req])
    | .ok resp =>
      if resp.status_code ≠ 200 then
        (statusObj "error"
          ("GitHub API error: " ++ toString resp.status_code ++ " - " ++ resp.text)
          [("contents", JSON.arr [])], [req])
      else
        match resp.json with
        | .exn e =>
          (statusObj "error" ("Error scanning repository: " ++ e)
            [("contents", JSON.arr [])], [req])
        | .ok contents =>
          if contents.isFalsy then
            (statusObj "success" "No contents found." [("contents", JSON.arr [])], [req])
          else
            match contents with
            | JSON.arr items =>
              match formatContentsList items with
              | .ok fc =>
                (statusObj "success"
                  ("Found " ++ toString fc.length ++ " items in repository.")
                  [("contents", JSON.arr fc)], [req])
              | .exn e =>
                (statusObj "error" ("Error scanning repository: " ++ e)
                  [("contents", JSON.arr [])], [req])
            | JSON.obj _ =>
              -- Single file response
              (statusObj "success" "Found 1 items in repository."
                [("contents", JSON.arr [formatContentItem contents])], [req])
            | _ =>
              (statusObj "error" "Error scanning repository: AttributeError: get"
                [("contents", JSON.arr [])], [req])

/-- The contents URL built by `push_to_repository` for both its GET and
its PUT. -/
def pushUrl (repo_name file_path : String) : String :=
  "https://api.github.com/repos/" ++ repo_name ++ "/contents/" ++ file_path

def pushGetReq (repo_name file_path : String) : GithubReq :=
  ⟨"GET", pushUrl repo_name file_path, none⟩

/-- `push_to_repository` from `github_tools.py`: GET the file path to
learn an existing file's sha, then PUT the new content, including the
sha in the PUT body only when the GET succeeded with a truthy sha. -/
def push_to_repository (env : GithubEnv) (repo_name file_path content commit_message : String) :
    JSON × List GithubReq :=
  if githubAuthFailed env then
    (statusObj "error" "Failed to authenticate with GitHub. Please check credentials." [], [])
  else
    let getReq := pushGetReq repo_name file_path
    match env.http getReq with
    | .exn e => (statusObj "error" ("Error pushing to repository: " ++ e) [], [getReq])
    | .ok response =>
      let shaRes : PyResult JSON :=
        if response.status_code = 200 then
          match response.json with
          | .exn e => .exn e
          | .ok j =>
            match j with
            | JSON.obj _ => .ok (j.lookupD "sha" JSON.null)
            | _ => .exn "AttributeError: get"
        else .ok JSON.null
      match shaRes with
      | .exn e => (statusObj "error" ("Error pushing to repository: " ++ e) [], [getReq])
      | .ok sha =>
        let baseData : List (String × JSON) :=
          [("message", JSON.str commit_message), ("content", JSON.str (b64encode content))]
        let data := if sha.isFalsy then baseData else baseData ++ [("sha", sha)]
        let putReq : GithubReq := ⟨"PUT", pushUrl repo_name file_path, some (JSON.obj data)⟩
        match env.http putReq with
        | .exn e =>
          (statusObj "error" ("Error pushing to repository: " ++ e) [], [getReq, putReq])
        | .ok resp2 =>
          if resp2.status_code ≠ 200 ∧ resp2.status_code ≠ 201 then
            (statusObj "error"
              ("GitHub API error: " ++ toString resp2.status_code ++ " - " ++ resp2.text) [],
             [getReq, putReq])
          else
            match resp2.json with
            | .exn e =>
              (statusObj "error" ("Error pushing to repository: " ++ e) [], [getReq, putReq])
            | .ok result =>
              match result with
              | JSON.obj _ =>
                match result.lookupD "commit" (JSON.obj []) with
                | JSON.obj ckvs =>
                  (statusObj "success"
                    ("File '" ++ file_path ++ "' pushed to repository successfully.")
                    [("commit", JSON.obj
                      [("sha", (JSON.obj ckvs).lookupD "sha" JSON.null),
                       ("url", (JSON.obj ckvs).lookupD "html_url" JSON.null)])],
                   [getReq, putReq])
                | _ =>
                  (statusObj "error" "Error pushing to repository: AttributeError: get" [],
                   [getReq, putReq])
              | _ =>
                (statusObj "error" "Error pushing to repository: AttributeError: get" [],
                 [getReq, putReq])

/-! The package interface (`app/jarvis/tools/__init__.py`). -/

/-- The calendar names exported by `__all__`. -/
def calendar_exports : List String :=
  ["create_event", "delete_event", "edit_event", "list_events", "get_current_time"]

/-- The email tool names exported by `__all__`. -/
def email_exports : List String :=
  ["delete_email", "list_emails", "read_email", "send_email"]

/-- The GitHub tool names exported by `__all__`. -/
def github_exports : List String :=
  ["list_repositories", "create_repository", "scan_repository", "push_to_repository"]

/-- `__all__` of `app/jarvis/tools/__init__.py`, in source order. -/
def all_exports : List String := calendar_exports ++ email_exports ++ github_exports

/-! Specification-side definitions, used to compare the embedded code
with the spec's words. -/

/-- Whether a message part's `mimeType` equals `text/plain`. -/
def isTextPlain (p : JSON) : Bool :=
  match p.lookup "mimeType" with
  | some (JSON.str s) => s = "text/plain"
  | _ => false

/-- Case-insensitive header lookup, as the spec words it: the value of
the last header whose lowercased name matches the key, else the
default. -/
def headerLookup : List JSON → String → JSON → JSON
  | [], _, d => d
  | h :: hs, k, d =>
    match h.lookup "name" with
    | some (JSON.str n) =>
      if pyLower n = k then headerLookup hs k (h.lookupD "value" d) else headerLookup hs k d
    | _ => headerLookup hs k d

/-- Body selection exactly as the claim states it: the decoded first
part whose mimeType is text/plain, otherwise the decoded top-level
payload body data, otherwise the empty string. -/
def claimBody (decode : String → Option String) (message : JSON) : String :=
  let payload := message.lookupD "payload" (JSON.obj [])
  let parts : List JSON :=
    match payload.lookup "parts" with
    | some (JSON.arr ps) => ps
    | _ => []
  match parts.find? isTextPlain with
  | some p => partBodyText decode p
  | none => topLevelBodyText decode payload

/-- Body selection as the code actually behaves: when the payload has a
`parts` list, only that list is consulted (empty string when it holds no
text/plain part); the top-level payload body data is used only when
there is no `parts` key. -/
def amendedBody (decode : String → Option String) (message : JSON) : String :=
  let payload := message.lookupD "payload" (JSON.obj [])
  match payload.lookup "parts" with
  | some (JSON.arr ps) =>
    match ps.find? isTextPlain with
    | some p => partBodyText decode p
    | none => ""
  | some _ => placeholderBody
  | none => topLevelBodyText decode payload

/-- The eight-key output dictionary as the spec describes it, with the
body text supplied separately. -/
def formatFields (message : JSON) (bodyText : String) : JSON :=
  let payload := message.lookupD "payload" (JSON.obj [])
  let hs : List JSON :=
    match payload.lookup "headers" with
    | some (JSON.arr l) => l
    | _ => []
  JSON.obj
    [("id", message.lookupD "id" (JSON.str "")),
     ("thread_id", message.lookupD "threadId" (JSON.str "")),
     ("from", headerLookup hs "from" (JSON.str "Unknown")),
     ("to", headerLookup hs "to" (JSON.str "Unknown")),
     ("subject", headerLookup hs "subject" (JSON.str "(No Subject)")),
     ("date", headerLookup hs "date" (JSON.str "Unknown")),
     ("snippet", message.lookupD "snippet" (JSON.str "")),
     ("body", JSON.str bodyText)]

/-- `format_message` as the claim literally specifies it. -/
def format_message_claim (decode : String → Option String) (message : JSON) : JSON :=
  formatFields message (claimBody decode message)

/-- `format_message` as the amended claim specifies it. -/
def format_message_amended (decode : String → Option String) (message : JSON) : JSON :=
  formatFields message (amendedBody decode message)

/-- A well-formed Gmail API header entry: a dictionary with a string
`name` and a `value`. -/
def WFHeader (h : JSON) : Prop :=
  ∃ n v, h.lookup "name" = some (JSON.str n) ∧ h.lookup "value" = some v

/-- A well-formed Gmail API message part: a dictionary with a string
`mimeType`. -/
def WFPart (p : JSON) : Prop :=
  ∃ s, p.lookup "mimeType" = some (JSON.str s)

/-- A well-formed Gmail API message object: a dictionary whose payload
(when present) is a dictionary, whose header list is a list of
well-formed headers, and whose parts (when present) are a list of
well-formed parts. -/
def WFMessage (m : JSON) : Prop :=
  (∃ kvs, m = JSON.obj kvs) ∧
  (∃ pkvs, m.lookupD "payload" (JSON.obj []) = JSON.obj pkvs) ∧
  (∀ hs, (m.lookupD "payload" (JSON.obj [])).lookup "headers" = some hs →
    ∃ l, hs = JSON.arr l ∧ ∀ h ∈ l, WFHeader h) ∧
  (∀ ps, (m.lookupD "payload" (JSON.obj [])).lookup "parts" = some ps →
    ∃ l, ps = JSON.arr l ∧ ∀ p ∈ l, WFPart p)

/-- The uniform status/message contract of every tool result. -/
def IsStatusDict (j : JSON) : Prop :=
  (j.lookup "status" = some (JSON.str "success") ∨
   j.lookup "status" = some (JSON.str "error")) ∧
  ∃ m, j.lookup "message" = some (JSON.str m)

/-- The collection-key contract of the three listing tools. -/
def HasListKey (j : JSON) (k : String) : Prop :=
  (∃ l, j.lookup k = some (JSON.arr l)) ∧
  (j.lookup "status" = some (JSON.str "error") → j.lookup k = some (JSON.arr []))

/-! Basic lemmas about the result dictionaries. -/

theorem statusObj_status (st m : String) (rest : List (String × JSON)) :
    (statusObj st m rest).lookup "status" = some (JSON.str st) := rfl

theorem statusObj_message (st m : String) (rest : List (String × JSON)) :
    (statusObj st m rest).lookup "message" = some (JSON.str m) := rfl

theorem success_ne_error (m : String) (rest : List (String × JSON)) :
    ¬ (statusObj "success" m rest).lookup "status" = some (JSON.str "error") := by
  rw [statusObj_status]
  intro h
  injection h with h1
  injection h1 with h2
  exact absurd h2 (by decide)

theorem isStatusDict_success (m : String) (rest : List (String × JSON)) :
    IsStatusDict (statusObj "success" m rest) :=
  ⟨Or.inl (statusObj_status _ _ _), _, statusObj_message _ _ _⟩

theorem isStatusDict_error (m : String) (rest : List (String × JSON)) :
    IsStatusDict (statusObj "error" m rest) :=
  ⟨Or.inr (statusObj_status _ _ _), _, statusObj_message _ _ _⟩

theorem statusDict_list_emails (svc : Option GmailEnv) (mr : Int) (q l : String) :
    IsStatusDict (list_emails svc mr q l).1 := by
  simp only [list_emails]
  repeat' split
  all_goals first
    | exact isStatusDict_success _ _
    | exact isStatusDict_error _ _

theorem statusDict_read_email (svc : Option GmailEnv) (id_ : String) :
    IsStatusDict (read_email svc id_).1 := by
  simp only [read_email]
  repeat' split
  all_goals first
    | exact isStatusDict_success _ _
    | exact isStatusDict_error _ _

theorem statusDict_send_email (svc : Option GmailEnv) (t s b : String) (ih : Bool) :
    IsStatusDict (send_email svc t s b ih).1 := by
  simp only [send_email]
  repeat' split
  all_goals first
    | exact isStatusDict_success _ _
    | exact isStatusDict_error _ _

theorem statusDict_delete_email (svc : Option GmailEnv) (id_ : String) (t : Bool) :
    IsStatusDict (delete_email svc id_ t).1 := by
  simp only [delete_email]
  repeat' split
  all_goals first
    | exact isStatusDict_success _ _
    | exact isStatusDict_error _ _

theorem statusDict_list_repositories (env : GithubEnv) :
    IsStatusDict (list_repositories env).1 := by
  simp only [list_repositories]
  repeat' split
  all_goals first
    | exact isStatusDict_success _ _
    | exact isStatusDict_error _ _

theorem statusDict_create_repository (env : GithubEnv) (n d : String) (p : Bool) :
    IsStatusDict (create_repository env n d p).1 := by
  simp only [create_repository]
  repeat' split
  all_goals first
    | exact isStatusDict_success _ _
    | exact isStatusDict_error _ _

theorem statusDict_scan_repository (env : GithubEnv) (rn p : String) :
    IsStatusDict (scan_repository env rn p).1 := by
  simp only [scan_repository]
  repeat' split
  all_goals first
    | exact isStatusDict_success _ _
    | exact isStatusDict_error _ _

theorem statusDict_push_to_repository (env : GithubEnv) (rn fp c cm : String) :
    IsStatusDict (push_to_repository env rn fp c cm).1 := by
  simp only [push_to_repository]
  repeat' split
  all_goals first
    | exact isStatusDict_success _ _
    | exact isStatusDict_error _ _

/-- C1: every tool function, at every input and in every environment
(including environments whose API calls raise), returns a dictionary
whose `status` is `success` or `error` and whose `message` is a string;
exceptions never propagate, because every raising path ends in one of
the catch-all error dictionaries. -/
theorem tools_return_status_message :
    (∀ svc mr q l, IsStatusDict (list_emails svc mr q l).1) ∧
    (∀ svc id_, IsStatusDict (read_email svc id_).1) ∧
    (∀ svc t s b ih, IsStatusDict (send_email svc t s b ih).1) ∧
    (∀ svc id_ t, IsStatusDict (delete_email svc id_ t).1) ∧
    (∀ env, IsStatusDict (list_repositories env).1) ∧
    (∀ env n d p, IsStatusDict (create_repository env n d p).1) ∧
    (∀ env rn p, IsStatusDict (scan_repository env rn p).1) ∧
    (∀ env rn fp c cm, IsStatusDict (push_to_repository env rn fp c cm).1) :=
  ⟨statusDict_list_emails, statusDict_read_email, statusDict_send_email,
   statusDict_delete_email, statusDict_list_repositories, statusDict_create_repository,
   statusDict_scan_repository, statusDict_push_to_repository⟩

/-- C6: every tool function authenticates before doing anything else;
when the credential load fails (the Gmail service is `None`, the GitHub
headers are `None`), it returns the fixed authentication-failure error
dictionary and issues no HTTP/API request at all. -/
theorem auth_failure_no_requests :
    (∀ mr q l, list_emails none mr q l =
      (statusObj "error" "Failed to authenticate with Gmail. Please check credentials."
        [("emails", JSON.arr [])], [])) ∧
    (∀ id_, read_email none id_ =
      (statusObj "error" "Failed to authenticate with Gmail. Please check credentials." [], [])) ∧
    (∀ t s b ih, send_email none t s b ih =
      (statusObj "error" "Failed to authenticate with Gmail. Please check credentials." [], [])) ∧
    (∀ id_ t, delete_email none id_ t =
      (statusObj "error" "Failed to authenticate with Gmail. Please check credentials." [], [])) ∧
    (∀ http, list_repositories ⟨none, http⟩ =
      (statusObj "error" "Failed to authenticate with GitHub. Please check credentials."
        [("repositories", JSON.arr [])], [])) ∧
    (∀ http n d p, create_repository ⟨none, http⟩ n d p =
      (statusObj "error" "Failed to authenticate with GitHub. Please check credentials." [], [])) ∧
    (∀ http rn p, scan_repository ⟨none, http⟩ rn p =
      (statusObj "error" "Failed to authenticate with GitHub. Please check credentials."
        [("contents", JSON.arr [])], [])) ∧
    (∀ http rn fp c cm, push_to_repository ⟨none, http⟩ rn fp c cm =
      (statusObj "error" "Failed to authenticate with GitHub. Please check credentials." [], [])) :=
  ⟨fun _ _ _ => rfl, fun _ => rfl, fun _ _ _ _ => rfl, fun _ _ => rfl,
   fun _ => rfl, fun _ _ _ _ => rfl, fun _ _ _ => rfl, fun _ _ _ _ _ => rfl⟩

/-- C3: the email tools exported by the package are exactly
`list_emails`, `read_email`, `send_email`, `delete_email`; the GitHub
tools exported are exactly `list_repositories`, `create_repository`,
`scan_repository`, `push_to_repository`; and `__all__` makes every one
of them available on package import. -/
theorem tools_package_exports :
    email_exports.Perm ["list_emails", "read_email", "send_email", "delete_email"] ∧
    github_exports.Perm
      ["list_repositories", "create_repository", "scan_repository", "push_to_repository"] ∧
    email_exports ++ github_exports ⊆ all_exports := by
  refine ⟨by decide, by decide, ?_⟩
  decide

theorem tools_package_exports_witness : "push_to_repository" ∈ all_exports :=
  tools_package_exports.2.2 (by decide)

/-- C10: `delete_email` is selected by the `trash` flag: with `trash`
true it issues only the trash request and reports
`Email moved to trash successfully` on success; with `trash` false it
issues only the permanent-delete request and reports
`Email permanently deleted successfully`; no invocation ever issues
both. -/
theorem delete_email_trash_flag :
    (∀ g id_, (delete_email (some g) id_ true).2 = [GmailReq.trash id_] ∧
              (delete_email (some g) id_ false).2 = [GmailReq.delete id_]) ∧
    (∀ svc id_ t, (delete_email svc id_ t).2 = [] ∨
        (delete_email svc id_ t).2 = [GmailReq.trash id_] ∨
        (delete_email svc id_ t).2 = [GmailReq.delete id_]) ∧
    (∀ g id_ j, g.trashMessage id_ = PyResult.ok j →
        (delete_email (some g) id_ true).1 =
          statusObj "success" "Email moved to trash successfully" []) ∧
    (∀ g id_ j, g.deleteMessage id_ = PyResult.ok j →
        (delete_email (some g) id_ false).1 =
          statusObj "success" "Email permanently deleted successfully" []) := by
  refine ⟨?_, ?_, ?_, ?_⟩
  · intro g id_
    constructor
    · rcases h : g.trashMessage id_ with j | e <;> simp [delete_email, h]
    · rcases h : g.deleteMessage id_ with j | e <;> simp [delete_email, h]
  · intro svc id_ t
    cases svc with
    | none => exact Or.inl rfl
    | some g =>
      simp only [delete_email]
      split
      · refine Or.inr (Or.inl ?_)
        split <;> rfl
      · refine Or.inr (Or.inr ?_)
        split <;> rfl
  · intro g id_ j h
    simp [delete_email, h]
  · intro g id_ j h
    simp [delete_email, h]

/-- An example Gmail service environment for the witnesses. -/
def gmailEnvEx : GmailEnv :=
  { listMessages := fun _ _ =>
      PyResult.ok (JSON.obj [("messages", JSON.arr [JSON.obj [("id", JSON.str "m1")]])]),
    getMessage := fun _ =>
      PyResult.ok (JSON.obj
        [("id", JSON.str "m1"), ("threadId", JSON.str "t1"), ("snippet", JSON.str "snip"),
         ("payload", JSON.obj
           [("headers", JSON.arr
              [JSON.obj [("name", JSON.str "From"), ("value", JSON.str "alice@example.com")]]),
            ("body", JSON.obj [("data", JSON.str "aGV5")])])]),
    trashMessage := fun _ => PyResult.ok (JSON.obj []),
    deleteMessage := fun _ => PyResult.ok (JSON.obj []),
    getProfile := PyResult.ok (JSON.obj [("emailAddress", JSON.str "me@example.com")]),
    sendMessage := fun _ => PyResult.ok (JSON.obj [("id", JSON.str "s1")]),
    createRaw := fun _ _ _ _ _ => "RAW",
    decode := fun s => some ("D:" ++ s) }

theorem delete_email_trash_flag_witness :
    (delete_email (some gmailEnvEx) "m1" true).1 =
      statusObj "success" "Email moved to trash successfully" [] ∧
    (delete_email (some gmailEnvEx) "m1" false).1 =
      statusObj "success" "Email permanently deleted successfully" [] :=
  ⟨delete_email_trash_flag.2.2.1 gmailEnvEx "m1" (JSON.obj []) rfl,
   delete_email_trash_flag.2.2.2 gmailEnvEx "m1" (JSON.obj []) rfl⟩

theorem hasListKey_success (m : String) (lst : List JSON) (k : String)
    (h1 : "status" ≠ k) (h2 : "message" ≠ k) :
    HasListKey (statusObj "success" m [(k, JSON.arr lst)]) k := by
  constructor
  · exact ⟨lst, by simp [statusObj, JSON.lookup, lookupPairs, h1, h2]⟩
  · intro h
    exact absurd h (success_ne_error _ _)

theorem hasListKey_error (m : String) (k : String)
    (h1 : "status" ≠ k) (h2 : "message" ≠ k) :
    HasListKey (statusObj "error" m [(k, JSON.arr [])]) k := by
  constructor
  · exact ⟨[], by simp [statusObj, JSON.lookup, lookupPairs, h1, h2]⟩
  · intro _
    simp [statusObj, JSON.lookup, lookupPairs, h1, h2]

/-- C8: the three collection-returning tools keep their collection key
on every path: `list_emails` always returns an `emails` list,
`list_repositories` a `repositories` list, `scan_repository` a
`contents` list, and on every error path that list is empty. -/
theorem collection_keys_invariant :
    (∀ svc mr q l, HasListKey (list_emails svc mr q l).1 "emails") ∧
    (∀ env, HasListKey (list_repositories env).1 "repositories") ∧
    (∀ env rn p, HasListKey (scan_repository env rn p).1 "contents") := by
  refine ⟨?_, ?_, ?_⟩
  · intro svc mr q l
    simp only [list_emails]
    repeat' split
    all_goals first
      | exact hasListKey_success _ _ _ (by decide) (by decide)
      | exact hasListKey_error _ _ (by decide) (by decide)
  · intro env
    simp only [list_repositories]
    repeat' split
    all_goals first
      | exact hasListKey_success _ _ _ (by decide) (by decide)
      | exact hasListKey_error _ _ (by decide) (by decide)
  · intro env rn p
    simp only [scan_repository]
    repeat' split
    all_goals first
      | exact hasListKey_success _ _ _ (by decide) (by decide)
      | exact hasListKey_error _ _ (by decide) (by decide)

theorem collection_keys_invariant_witness :
    (list_emails none 10 "" "INBOX").1.lookup "emails" = some (JSON.arr []) :=
  (collection_keys_invariant.1 none 10 "" "INBOX").2 rfl

/-- The number of messages in the listing response, for bounding the
requests `list_emails` issues. -/
def listedCount (g : GmailEnv) (sq : String) (mr : Int) : Nat :=
  match g.listMessages sq mr with
  | PyResult.ok (JSON.obj kvs) =>
    match (JSON.obj kvs).lookupD "messages" (JSON.arr []) with
    | JSON.arr ms => ms.length
    | _ => 0
  | _ => 0

theorem fetchEmails_length (g : GmailEnv) (ms : List JSON) :
    (fetchEmails g ms).2.length ≤ ms.length := by
  induction ms with
  | nil => simp [fetchEmails]
  | cons m ms ih =>
    rcases hfe : fetchEmails g ms with ⟨res, reqs⟩
    have hr : reqs.length ≤ ms.length := by
      rw [hfe] at ih
      simpa using ih
    simp only [fetchEmails, hfe]
    repeat' split
    all_goals simp
    all_goals omega

/-- C2 (amended): the tool functions issue a small bounded number of
requests, not exactly one: `read_email`, `delete_email`,
`list_repositories`, `create_repository` and `scan_repository` issue at
most one request; `send_email` and `push_to_repository` issue at most
two; `list_emails` issues at most one listing request plus one get per
message in the listing response. -/
theorem tool_request_count_bounds :
    (∀ env, (list_repositories env).2.length ≤ 1) ∧
    (∀ env n d p, (create_repository env n d p).2.length ≤ 1) ∧
    (∀ env rn p, (scan_repository env rn p).2.length ≤ 1) ∧
    (∀ env rn fp c cm, (push_to_repository env rn fp c cm).2.length ≤ 2) ∧
    (∀ svc id_, (read_email svc id_).2.length ≤ 1) ∧
    (∀ svc id_ t, (delete_email svc id_ t).2.length ≤ 1) ∧
    (∀ svc t s b ih, (send_email svc t s b ih).2.length ≤ 2) ∧
    (∀ svc mr q l, (list_emails svc mr q l).2.length ≤
      1 + (match svc with
           | none => 0
           | some g => listedCount g (searchQuery l q) mr)) := by
  refine ⟨?_, ?_, ?_, ?_, ?_, ?_, ?_, ?_⟩
  · intro env
    simp only [list_repositories]
    repeat' split
    all_goals simp
  · intro env n d p
    simp only [create_repository]
    repeat' split
    all_goals simp
  · intro env rn p
    simp only [scan_repository]
    repeat' split
    all_goals simp
  · intro env rn fp c cm
    simp only [push_to_repository]
    repeat' split
    all_goals simp
  · intro svc id_
    simp only [read_email]
    repeat' split
    all_goals simp
  · intro svc id_ t
    simp only [delete_email]
    repeat' split
    all_goals simp
  · intro svc t s b ih
    simp only [send_email]
    repeat' split
    all_goals simp
  · intro svc mr q l
    cases svc with
    | none => simp [list_emails]
    | some g =>
      rcases hl : g.listMessages (searchQuery l q) mr with j | e
      · simp only [list_emails, hl, listedCount]
        cases j with
        | obj kvs =>
          have hb := fetchEmails_length g
          repeat' split
          all_goals simp_all
          all_goals refine le_trans (Nat.add_le_add_right (hb _) 1) ?_
          all_goals omega
        | null => simp
        | bool b => simp
        | num n => simp
        | str s => simp
        | arr xs => simp
      · simp [list_emails, hl]


/-- A GitHub environment where the target file does not exist (the
existence GET returns 404) and the PUT succeeds with 201. -/
def pushEnvCx : GithubEnv :=
  { headers := some (JSON.obj [("Accept", JSON.str "application/vnd.github.v3+json"),
                               ("Authorization", JSON.str "token t")]),
    http := fun req =>
      if req.method = "GET" then
        PyResult.ok ⟨404, "Not Found", PyResult.ok (JSON.obj [])⟩
      else
        PyResult.ok ⟨201, "Created",
          PyResult.ok (JSON.obj
            [("commit", JSON.obj [("sha", JSON.str "c1"), ("html_url", JSON.str "u")])])⟩ }

/-- C2 (counterexample): `push_to_repository` is not single-call: on a
successful invocation it issues two HTTP requests (the existence GET and
the PUT), not exactly one. -/
theorem push_two_requests_counterexample :
    (push_to_repository pushEnvCx "user/repo" "notes.txt" "hello" "add notes").2.length = 2 ∧
    (push_to_repository pushEnvCx "user/repo" "notes.txt" "hello" "add notes").1.lookup "status"
      = some (JSON.str "success") ∧
    (2 : Nat) ≠ 1 :=
  ⟨rfl, rfl, by decide⟩

/-- C7 (counterexample): a GitHub API response with a non-success status
code does not always cause an immediate error return: the file-existence
GET inside `push_to_repository` here answers 404, yet the function goes
on to issue the PUT and returns a success dictionary. -/
theorem push_get_nonsuccess_counterexample :
    pushEnvCx.http (pushGetReq "user/repo" "notes.txt") =
      PyResult.ok ⟨404, "Not Found", PyResult.ok (JSON.obj [])⟩ ∧
    (push_to_repository pushEnvCx "user/repo" "notes.txt" "hello" "add notes").1.lookup "status"
      = some (JSON.str "success") ∧
    (push_to_repository pushEnvCx "user/repo" "notes.txt" "hello" "add notes").2.length = 2 :=
  ⟨rfl, rfl, rfl⟩


theorem buildHeaders_wf (hs : List JSON) (hwf : ∀ h ∈ hs, WFHeader h) :
    ∃ hl, buildHeaders hs = PyResult.ok hl ∧
      ∀ k d, dictGetLast hl k d = headerLookup hs k d := by
  induction hs with
  | nil => exact ⟨[], rfl, fun k d => rfl⟩
  | cons h t ih =>
    obtain ⟨n, v, hn, hv⟩ := hwf h (by simp)
    obtain ⟨hl, hbt, hlk⟩ := ih (fun x hx => hwf x (by simp [hx]))
    refine ⟨(pyLower n, v) :: hl, ?_, ?_⟩
    · simp only [buildHeaders, hn, hv, hbt]
    · intro k d
      simp only [dictGetLast, headerLookup, hn]
      by_cases hc : pyLower n = k
      · rw [if_pos hc, if_pos hc, hlk]
        congr 1
        simp [JSON.lookupD, hv]
      · rw [if_neg hc, if_neg hc, hlk]

theorem scanParts_wf (decode : String → Option String) (ps : List JSON)
    (hwf : ∀ p ∈ ps, WFPart p) :
    scanParts decode ps =
      (match ps.find? isTextPlain with
       | some p => partBodyText decode p
       | none => "") := by
  induction ps with
  | nil => rfl
  | cons p t ih =>
    obtain ⟨s, hmt⟩ := hwf p (by simp)
    by_cases hc : s = "text/plain"
    · subst hc
      rw [List.find?_cons_of_pos _ (by simp [isTextPlain, hmt])]
      simp [scanParts, hmt]
    · rw [List.find?_cons_of_neg _ (by simp [isTextPlain, hmt, hc])]
      simp only [scanParts, hmt, if_neg hc]
      exact ih (fun x hx => hwf x (by simp [hx]))


/-- C4 (amended): for every well-formed Gmail API message object,
`format_message` returns (without raising) the dictionary with exactly
the keys id, thread_id, from, to, subject, date, snippet and body;
header names are matched case-insensitively with the claimed defaults;
and the body is the decoded first text/plain part when the payload has a
parts list (the empty string when that list holds no text/plain part),
otherwise the decoded top-level payload body data, otherwise the empty
string, with decode failures — and any raising access to a malformed
top-level body value — yielding the placeholder text. -/
theorem format_message_matches_amended_spec (decode : String → Option String)
    (m : JSON) (hwf : WFMessage m) :
    format_message decode m = PyResult.ok (format_message_amended decode m) := by
  obtain ⟨⟨kvs, hm⟩, ⟨pkvs, hp⟩, hhdr, hparts⟩ := hwf
  subst hm
  rw [hp] at hhdr hparts
  have hbody : extractBody decode (JSON.obj pkvs)
      = amendedBody decode (JSON.obj kvs) := by
    simp only [extractBody, amendedBody, hp]
    rcases hpp : (JSON.obj pkvs).lookup "parts" with _ | ps
    · rfl
    · obtain ⟨l, hpl, hall⟩ := hparts ps hpp
      subst hpl
      simp only [hpp, scanParts_wf decode l hall]
  simp only [format_message, format_message_amended, formatFields, hp]
  simp only [hbody]
  rcases hh : (JSON.obj pkvs).lookup "headers" with _ | hs
  · simp only [hh]
    rfl
  · obtain ⟨l, hpl, hall⟩ := hhdr hs hh
    subst hpl
    obtain ⟨hl, hbh, hlk⟩ := buildHeaders_wf l hall
    simp only [hh, hbh, hlk]


/-- A stand-in for the base64url decoder in concrete examples: it tags
its input, so decoded strings are recognizable. -/
def tagDecode : String → Option String := fun s => some ("D:" ++ s)

/-- A message whose payload has a parts list without any text/plain part
but does carry top-level body data. -/
def partsMsgCx : JSON := JSON.obj
  [("id", JSON.str "m7"),
   ("threadId", JSON.str "t7"),
   ("snippet", JSON.str "snip"),
   ("payload", JSON.obj
     [("headers", JSON.arr
        [JSON.obj [("name", JSON.str "From"), ("value", JSON.str "bob@example.com")]]),
      ("parts", JSON.arr
        [JSON.obj [("mimeType", JSON.str "text/html"),
                   ("body", JSON.obj [("data", JSON.str "PGI+aGk8L2I+")])]]),
      ("body", JSON.obj [("data", JSON.str "SGVsbG8")])])]

/-- C4 (counterexample): on a message whose parts list has no text/plain
part, the code leaves the body empty and never falls back to the
top-level payload body data, while the claim's body rule decodes that
top-level data. -/
theorem format_message_parts_counterexample :
    (∃ j, format_message tagDecode partsMsgCx = PyResult.ok j ∧
          j.lookup "body" = some (JSON.str "")) ∧
    (format_message_claim tagDecode partsMsgCx).lookup "body"
      = some (JSON.str "D:SGVsbG8") ∧
    ("" : String) ≠ "D:SGVsbG8" :=
  ⟨⟨_, rfl, rfl⟩, rfl, by decide⟩

/-- A well-formed message exercising headers and a text/plain part. -/
def wfMsgEx : JSON := JSON.obj
  [("id", JSON.str "m1"),
   ("threadId", JSON.str "t1"),
   ("snippet", JSON.str "snip"),
   ("payload", JSON.obj
     [("headers", JSON.arr
        [JSON.obj [("name", JSON.str "From"), ("value", JSON.str "alice@example.com")]]),
      ("parts", JSON.arr
        [JSON.obj [("mimeType", JSON.str "text/plain"),
                   ("body", JSON.obj [("data", JSON.str "aGV5")])]])])]

theorem format_message_matches_amended_spec_witness :
    format_message tagDecode wfMsgEx =
      PyResult.ok (format_message_amended tagDecode wfMsgEx) :=
  format_message_matches_amended_spec tagDecode wfMsgEx (by
    refine ⟨⟨_, rfl⟩, ⟨_, rfl⟩, ?_, ?_⟩
    · intro hs h
      have h2 : some (JSON.arr
          [JSON.obj [("name", JSON.str "From"), ("value", JSON.str "alice@example.com")]])
          = some hs := h
      cases h2
      refine ⟨_, rfl, ?_⟩
      intro x hx
      simp only [List.mem_singleton] at hx
      subst hx
      exact ⟨"From", JSON.str "alice@example.com", rfl, rfl⟩
    · intro ps h
      have h2 : some (JSON.arr
          [JSON.obj [("mimeType", JSON.str "text/plain"),
                     ("body", JSON.obj [("data", JSON.str "aGV5")])]])
          = some ps := h
      cases h2
      refine ⟨_, rfl, ?_⟩
      intro x hx
      simp only [List.mem_singleton] at hx
      subst hx
      exact ⟨"text/plain", rfl⟩)


/-- A listed message for which the whole fetch-and-format pipeline of
`list_emails` succeeds. -/
def FetchOk (g : GmailEnv) (m : JSON) : Prop :=
  ∃ mid j fm, m.lookup "id" = some mid ∧ g.getMessage mid = PyResult.ok j ∧
    format_message g.decode j = PyResult.ok fm

/-- The formatted email that `list_emails` produces for one listed
message (null on the failure paths, which `FetchOk` rules out). -/
def fetchedFormatted (g : GmailEnv) (m : JSON) : JSON :=
  match m.lookup "id" with
  | some mid =>
    match g.getMessage mid with
    | PyResult.ok j =>
      match format_message g.decode j with
      | PyResult.ok fm => fm
      | PyResult.exn _ => JSON.null
    | PyResult.exn _ => JSON.null
  | none => JSON.null

/-- The get request `list_emails` issues for one listed message. -/
def fetchedReq (m : JSON) : GmailReq := GmailReq.get (m.lookupD "id" JSON.null)

theorem fetchEmails_ok (g : GmailEnv) (ms : List JSON) (h : ∀ m ∈ ms, FetchOk g m) :
    fetchEmails g ms =
      (PyResult.ok (ms.map (fetchedFormatted g)), ms.map fetchedReq) := by
  induction ms with
  | nil => rfl
  | cons m t ih =>
    obtain ⟨mid, j, fm, hid, hgm, hfm⟩ := h m (by simp)
    have iht := ih (fun x hx => h x (by simp [hx]))
    simp only [fetchEmails, hid, hgm, hfm, iht, List.map_cons, fetchedFormatted,
      fetchedReq, JSON.lookupD]

/-- C5: `list_emails` reshapes a mocked listing response as claimed: the
query sent to the API is `label:` plus the label, extended with a space
and the user query when that is non-empty; an empty listing yields the
success dictionary `No emails found.` with an empty email list; a
non-empty listing is fetched id by id, in order, each message formatted
with `format_message`, and the result carries those formatted emails in
listing order with the message `Found n emails.` for n the number of
emails returned. -/
theorem list_emails_reshapes_listing :
    ∀ (g : GmailEnv) (mr : Int) (q l : String) (resp : List (String × JSON)) (ms : List JSON),
      g.listMessages (searchQuery l q) mr = PyResult.ok (JSON.obj resp) →
      (JSON.obj resp).lookupD "messages" (JSON.arr []) = JSON.arr ms →
      ((list_emails (some g) mr q l).2.head? =
        some (GmailReq.list ("label:" ++ l ++ (if q = "" then "" else " " ++ q)) mr)) ∧
      (ms = [] →
        list_emails (some g) mr q l =
          (statusObj "success" "No emails found." [("emails", JSON.arr [])],
           [GmailReq.list (searchQuery l q) mr])) ∧
      (ms ≠ [] → (∀ m ∈ ms, FetchOk g m) →
        list_emails (some g) mr q l =
          (statusObj "success"
            ("Found " ++ toString (ms.map (fetchedFormatted g)).length ++ " emails.")
            [("emails", JSON.arr (ms.map (fetchedFormatted g)))],
           GmailReq.list (searchQuery l q) mr :: ms.map fetchedReq)) := by
  intro g mr q l resp ms hresp hmsg
  refine ⟨?_, ?_, ?_⟩
  · simp only [list_emails, hresp, hmsg, searchQuery]
    repeat' split
    all_goals rfl
  · intro h0
    subst h0
    simp only [list_emails, hresp, hmsg]
    rfl
  · intro hne hall
    have hfe := fetchEmails_ok g ms hall
    have hfl : (JSON.arr ms).isFalsy = false := by
      cases ms with
      | nil => exact absurd rfl hne
      | cons a t => rfl
    simp only [list_emails, hresp, hmsg, hfl, hfe]
    rfl

theorem list_emails_reshapes_listing_witness :
    list_emails (some gmailEnvEx) 5 "is:unread" "INBOX" =
      (statusObj "success" "Found 1 emails."
        [("emails", JSON.arr
          [fetchedFormatted gmailEnvEx (JSON.obj [("id", JSON.str "m1")])])],
       [GmailReq.list "label:INBOX is:unread" 5, GmailReq.get (JSON.str "m1")]) :=
  (list_emails_reshapes_listing gmailEnvEx 5 "is:unread" "INBOX"
      [("messages", JSON.arr [JSON.obj [("id", JSON.str "m1")]])]
      [JSON.obj [("id", JSON.str "m1")]] rfl rfl).2.2
    (List.cons_ne_nil _ _)
    (by
      intro m hm
      rw [List.mem_singleton] at hm
      subst hm
      exact ⟨JSON.str "m1", _, _, rfl, rfl, rfl⟩)


/-- Whether a Gmail request is the listing request. -/
def GmailReq.isList : GmailReq → Bool
  | GmailReq.list _ _ => true
  | _ => false

/-- Whether a Gmail request is a message get. -/
def GmailReq.isGet : GmailReq → Bool
  | GmailReq.get _ => true
  | _ => false

theorem fetchEmails_all_get (g : GmailEnv) (ms : List JSON) :
    ∀ r ∈ (fetchEmails g ms).2, GmailReq.isGet r = true := by
  induction ms with
  | nil =>
    intro r hr
    simp [fetchEmails] at hr
  | cons m t ih =>
    intro r hr
    rcases hfe : fetchEmails g t with ⟨res, reqs⟩
    rw [hfe] at ih
    simp only [fetchEmails, hfe] at hr
    repeat' split at hr
    all_goals simp only [List.mem_cons, List.mem_singleton, List.not_mem_nil, or_false] at hr
    all_goals first
      | exact hr.elim
      | (subst hr; rfl)
      | (rcases hr with h | h
         · subst h; rfl
         · exact ih r h)


/-- The POST request `create_repository` issues. -/
def createRepoReq (name description : String) (isPrivate : Bool) : GithubReq :=
  ⟨"POST", createRepoUrl, some (JSON.obj
    [("name", JSON.str name), ("description", JSON.str description),
     ("private", JSON.bool isPrivate), ("auto_init", JSON.bool true)])⟩

/-- The GET request `scan_repository` issues. -/
def scanReq (repo_name path : String) : GithubReq := ⟨"GET", scanUrl repo_name path, none⟩

/-- The PUT request `push_to_repository` issues when no sha was found. -/
def pushPutReqNoSha (rn fp c cm : String) : GithubReq :=
  ⟨"PUT", pushUrl rn fp, some (JSON.obj
    [("message", JSON.str cm), ("content", JSON.str (b64encode c))])⟩

/-- The PUT request `push_to_repository` issues when the existence GET
found sha `s`. -/
def pushPutReqSha (rn fp c cm s : String) : GithubReq :=
  ⟨"PUT", pushUrl rn fp, some (JSON.obj
    [("message", JSON.str cm), ("content", JSON.str (b64encode c)), ("sha", JSON.str s)])⟩

/-- C7 (amended): no tool function ever retries: within one invocation
the GitHub tools and `read_email`, `delete_email`, `send_email` issue
pairwise distinct requests, and `list_emails` issues at most one listing
request followed only by per-message gets.  When a GitHub API response
has a non-success status code the function immediately returns an error
dictionary embedding that status code and response text — except the
file-existence GET of `push_to_repository`, whose non-200 response only
makes the subsequent PUT omit the sha field (the counterexample shows
that exception). -/
theorem no_retry_error_on_nonsuccess :
    (∀ env, (list_repositories env).2.Nodup) ∧
    (∀ env n d p, (create_repository env n d p).2.Nodup) ∧
    (∀ env rn p, (scan_repository env rn p).2.Nodup) ∧
    (∀ env rn fp c cm, (push_to_repository env rn fp c cm).2.Nodup) ∧
    (∀ svc id_, (read_email svc id_).2.Nodup) ∧
    (∀ svc id_ t, (delete_email svc id_ t).2.Nodup) ∧
    (∀ svc t s b ih, (send_email svc t s b ih).2.Nodup) ∧
    (∀ svc mr q l, ((list_emails svc mr q l).2.filter GmailReq.isList).length ≤ 1 ∧
      ∀ r ∈ (list_emails svc mr q l).2.drop 1, GmailReq.isGet r = true) ∧
    (∀ env r, githubAuthFailed env = false → env.http listReposReq = PyResult.ok r →
      r.status_code ≠ 200 →
      list_repositories env =
        (statusObj "error" ("GitHub API error: " ++ toString r.status_code ++ " - " ++ r.text)
          [("repositories", JSON.arr [])], [listReposReq])) ∧
    (∀ env n d p r, githubAuthFailed env = false →
      env.http (createRepoReq n d p) = PyResult.ok r →
      r.status_code ≠ 200 → r.status_code ≠ 201 →
      create_repository env n d p =
        (statusObj "error" ("GitHub API error: " ++ toString r.status_code ++ " - " ++ r.text)
          [], [createRepoReq n d p])) ∧
    (∀ env rn p r, githubAuthFailed env = false →
      env.http (scanReq rn p) = PyResult.ok r → r.status_code ≠ 200 →
      scan_repository env rn p =
        (statusObj "error" ("GitHub API error: " ++ toString r.status_code ++ " - " ++ r.text)
          [("contents", JSON.arr [])], [scanReq rn p])) ∧
    (∀ env rn fp c cm r1 r2, githubAuthFailed env = false →
      env.http (pushGetReq rn fp) = PyResult.ok r1 → r1.status_code ≠ 200 →
      env.http (pushPutReqNoSha rn fp c cm) = PyResult.ok r2 →
      r2.status_code ≠ 200 → r2.status_code ≠ 201 →
      push_to_repository env rn fp c cm =
        (statusObj "error" ("GitHub API error: " ++ toString r2.status_code ++ " - " ++ r2.text)
          [], [pushGetReq rn fp, pushPutReqNoSha rn fp c cm])) ∧
    (∀ env rn fp c cm r1 jk s r2, githubAuthFailed env = false →
      env.http (pushGetReq rn fp) = PyResult.ok r1 → r1.status_code = 200 →
      r1.json = PyResult.ok (JSON.obj jk) → lookupPairs jk "sha" = some (JSON.str s) →
      s ≠ "" →
      env.http (pushPutReqSha rn fp c cm s) = PyResult.ok r2 →
      r2.status_code ≠ 200 → r2.status_code ≠ 201 →
      push_to_repository env rn fp c cm =
        (statusObj "error" ("GitHub API error: " ++ toString r2.status_code ++ " - " ++ r2.text)
          [], [pushGetReq rn fp, pushPutReqSha rn fp c cm s])) := by
  refine ⟨?_, ?_, ?_, ?_, ?_, ?_, ?_, ?_, ?_, ?_, ?_, ?_, ?_⟩
  · intro env
    simp only [list_repositories]
    repeat' split
    all_goals simp
  · intro env n d p
    simp only [create_repository]
    repeat' split
    all_goals simp
  · intro env rn p
    simp only [scan_repository]
    repeat' split
    all_goals simp
  · intro env rn fp c cm
    simp only [push_to_repository]
    repeat' split
    all_goals simp [pushGetReq, GithubReq.mk.injEq]
  · intro svc id_
    simp only [read_email]
    repeat' split
    all_goals simp
  · intro svc id_ t
    simp only [delete_email]
    repeat' split
    all_goals simp
  · intro svc t s b ih
    simp only [send_email]
    repeat' split
    all_goals simp [List.nodup_cons]
  · intro svc mr q l
    constructor
    · cases svc with
      | none => simp [list_emails]
      | some g =>
        simp only [list_emails]
        repeat' split
        all_goals simp [GmailReq.isList, List.filter]
        all_goals
          intro a ha
          have hg := fetchEmails_all_get g _ a ha
          cases a <;> simp_all [GmailReq.isGet]
    · cases svc with
      | none => simp [list_emails]
      | some g =>
        intro r hr
        simp only [list_emails] at hr
        repeat' split at hr
        all_goals simp only [List.drop_succ_cons, List.drop_nil, List.drop_one] at hr
        all_goals first
          | exact absurd hr (List.not_mem_nil r)
          | exact fetchEmails_all_get g _ r (List.mem_of_mem_tail hr)
          | exact fetchEmails_all_get g _ r hr
  · intro env r hauth hr h200
    simp only [list_repositories, hauth, Bool.false_eq_true, if_false, hr, if_pos h200]
  · intro env n d p r hauth hr h200 h201
    simp only [createRepoReq] at hr
    simp only [create_repository, createRepoReq, hauth, Bool.false_eq_true, if_false, hr]
    rw [if_pos ⟨h200, h201⟩]
  · intro env rn p r hauth hr h200
    simp only [scanReq] at hr
    simp only [scan_repository, scanReq, hauth, Bool.false_eq_true, if_false, hr, if_pos h200]
  · intro env rn fp c cm r1 r2 hauth h1 h200 h2 hs200 hs201
    simp only [pushPutReqNoSha] at h2
    simp only [push_to_repository, pushPutReqNoSha, hauth, Bool.false_eq_true, if_false, h1,
      if_neg h200, JSON.isFalsy, eq_self_iff_true, if_true]
    simp only [h2]
    rw [if_pos ⟨hs200, hs201⟩]
  · intro env rn fp c cm r1 jk s r2 hauth h1 h200 hjson hsha hsne h2 hs200 hs201
    have hfalsy : (JSON.str s).isFalsy = false := by
      simp only [JSON.isFalsy]
      exact beq_eq_false_iff_ne.mpr hsne
    simp only [pushPutReqSha] at h2
    simp only [push_to_repository, pushPutReqSha, hauth, Bool.false_eq_true, if_false, h1,
      if_pos h200, hjson, JSON.lookupD, JSON.lookup, hsha, hfalsy, Bool.false_eq_true, if_false,
      List.cons_append, List.nil_append]
    simp only [h2]
    rw [if_pos ⟨hs200, hs201⟩]


/-- A GitHub environment whose API answers every request with a 500. -/
def ghFailEnv : GithubEnv :=
  { headers := some (JSON.obj [("Accept", JSON.str "application/vnd.github.v3+json"),
                               ("Authorization", JSON.str "token t")]),
    http := fun _ => PyResult.ok ⟨500, "boom", PyResult.ok JSON.null⟩ }

theorem no_retry_error_on_nonsuccess_witness :
    list_repositories ghFailEnv =
      (statusObj "error" "GitHub API error: 500 - boom" [("repositories", JSON.arr [])],
       [listReposReq]) :=
  no_retry_error_on_nonsuccess.2.2.2.2.2.2.2.2.1 ghFailEnv
    ⟨500, "boom", PyResult.ok JSON.null⟩ rfl rfl (by decide)


/-- C9: `push_to_repository` is an upsert: it first issues a GET for the
target file path; whenever it issues its PUT, the PUT body carries the
commit message and the standard-base64 encoding of the content, carries
a sha exactly when the GET answered 200 (with the existing file's sha,
assuming well-formed GET responses whose 200 body holds a non-empty
string sha), and that sha equals the existing file's sha, so an existing
file is overwritten rather than the call failing. -/
theorem push_upsert_put_body :
    ∀ (env : GithubEnv) (rn fp c cm : String),
      githubAuthFailed env = false →
      (∀ r, env.http (pushGetReq rn fp) = PyResult.ok r → r.status_code = 200 →
        ∃ jk s, r.json = PyResult.ok (JSON.obj jk) ∧
          lookupPairs jk "sha" = some (JSON.str s) ∧ s ≠ "") →
      ((push_to_repository env rn fp c cm).2.head? = some (pushGetReq rn fp)) ∧
      (∀ req ∈ (push_to_repository env rn fp c cm).2, req.method = "PUT" →
        req.url = pushUrl rn fp ∧
        ∃ body, req.body = some (JSON.obj body) ∧
          lookupPairs body "message" = some (JSON.str cm) ∧
          lookupPairs body "content" = some (JSON.str (b64encode c)) ∧
          ((∃ sh, lookupPairs body "sha" = some sh) ↔
            (∃ r, env.http (pushGetReq rn fp) = PyResult.ok r ∧ r.status_code = 200)) ∧
          (∀ r jk, env.http (pushGetReq rn fp) = PyResult.ok r → r.status_code = 200 →
            r.json = PyResult.ok (JSON.obj jk) →
            lookupPairs body "sha" = lookupPairs jk "sha")) := by
  intro env rn fp c cm hauth hwf
  rcases h1 : env.http (pushGetReq rn fp) with r | e
  case ok =>
    by_cases h200 : r.status_code = 200
    · obtain ⟨jk, s, hjson, hsha, hsne⟩ := hwf r h1 h200
      have hfalsy : (JSON.str s).isFalsy = false := by
        simp only [JSON.isFalsy]
        exact beq_eq_false_iff_ne.mpr hsne
      have htr : (push_to_repository env rn fp c cm).2 =
          [pushGetReq rn fp, pushPutReqSha rn fp c cm s] := by
        simp only [push_to_repository, pushPutReqSha, hauth, Bool.false_eq_true, if_false, h1,
          if_pos h200, hjson, JSON.lookupD, JSON.lookup, hsha, hfalsy, List.cons_append,
          List.nil_append]
        repeat' split
        all_goals rfl
      refine ⟨by rw [htr]; rfl, ?_⟩
      intro req hreq hput
      rw [htr] at hreq
      simp only [List.mem_cons, List.mem_singleton, List.not_mem_nil, or_false] at hreq
      rcases hreq with h | h
      · subst h
        have hm : (pushGetReq rn fp).method = "GET" := rfl
        rw [hm] at hput
        exact absurd hput (by decide)
      · subst h
        refine ⟨rfl, _, rfl, rfl, rfl, ?_, ?_⟩
        · exact ⟨fun _ => ⟨r, rfl, h200⟩, fun _ => ⟨JSON.str s, rfl⟩⟩
        · intro r' jk' hr' h200' hjson'
          injection hr' with he
          subst he
          rw [hjson] at hjson'
          injection hjson' with he2
          injection he2 with he3
          subst he3
          rw [hsha]
          rfl
    · have htr : (push_to_repository env rn fp c cm).2 =
          [pushGetReq rn fp, pushPutReqNoSha rn fp c cm] := by
        simp only [push_to_repository, pushPutReqNoSha, hauth, Bool.false_eq_true, if_false, h1,
          if_neg h200, JSON.isFalsy, eq_self_iff_true, if_true]
        repeat' split
        all_goals rfl
      refine ⟨by rw [htr]; rfl, ?_⟩
      intro req hreq hput
      rw [htr] at hreq
      simp only [List.mem_cons, List.mem_singleton, List.not_mem_nil, or_false] at hreq
      rcases hreq with h | h
      · subst h
        have hm : (pushGetReq rn fp).method = "GET" := rfl
        rw [hm] at hput
        exact absurd hput (by decide)
      · subst h
        refine ⟨rfl, _, rfl, rfl, rfl, ?_, ?_⟩
        · constructor
          · rintro ⟨sh, hsh⟩
            exact nomatch hsh
          · rintro ⟨r', hr', h2'⟩
            injection hr' with he
            subst he
            exact absurd h2' h200
        · intro r' jk' hr' h200' _
          injection hr' with he
          subst he
          exact absurd h200' h200
  case exn =>
    have htr : (push_to_repository env rn fp c cm).2 = [pushGetReq rn fp] := by
      simp only [push_to_repository, hauth, Bool.false_eq_true, if_false, h1]
    refine ⟨by rw [htr]; rfl, ?_⟩
    intro req hreq hput
    rw [htr] at hreq
    simp only [List.mem_singleton] at hreq
    subst hreq
    have hm : (pushGetReq rn fp).method = "GET" := rfl
    rw [hm] at hput
    exact absurd hput (by decide)


/-- A GitHub environment where the target file already exists: the GET
answers 200 with a sha and the PUT succeeds. -/
def ghShaEnv : GithubEnv :=
  { headers := some (JSON.obj [("Accept", JSON.str "application/vnd.github.v3+json"),
                               ("Authorization", JSON.str "token t")]),
    http := fun req =>
      if req.method = "GET" then
        PyResult.ok ⟨200, "OK", PyResult.ok (JSON.obj [("sha", JSON.str "oldsha")])⟩
      else
        PyResult.ok ⟨200, "OK",
          PyResult.ok (JSON.obj
            [("commit", JSON.obj [("sha", JSON.str "newsha"), ("html_url", JSON.str "u")])])⟩ }

theorem push_upsert_put_body_witness :
    (push_to_repository ghShaEnv "u/r" "f.txt" "hi" "msg").2.head? =
      some (pushGetReq "u/r" "f.txt") :=
  (push_upsert_put_body ghShaEnv "u/r" "f.txt" "hi" "msg" rfl
    (fun r hr _ => by
      have hr2 : PyResult.ok
          (⟨200, "OK", PyResult.ok (JSON.obj [("sha", JSON.str "oldsha")])⟩ : HttpResponse)
          = PyResult.ok r := hr
      injection hr2 with he
      subst he
      exact ⟨[("sha", JSON.str "oldsha")], "oldsha", rfl, rfl, by decide⟩)).1

end Jarvis
